import Mathlib

/-!
Verification development for the tcp2 case-study sources
(examples/speculative/allocators_1.c and examples/speculative/events_in_out_1.c).

Memory regions are modelled as lists of byte values (List Nat); a NULL
pointer result is Option.none.  The mutable global
tcp2_trivial_allocator_app_operations is modelled by threading an explicit
AppOperations state through the functions that read it.  malloc is modelled
by an extra argument giving the raw contents the heap would hand back
(none when malloc fails); memset of the first size bytes becomes
List.replicate size 0 ++ bytes.drop size.

The dispatch condition in tcp2_trivial_alloc and tcp2_trivial_free is kept
exactly as written in C, where && binds tighter than ||:
  (appOps.alloc != NULL) && (type == 0) || (type > 1048576)
parses as ((alloc != NULL && type == 0) || type > 1048576).
-/

/-- tcp2 uses type ids strictly below this limit (allocators_1.c, comment at
lines 150-152: applications may use ids from this value and beyond). -/
def TCP2_TYPE_LIMIT : Nat := 1048576

/-- The state of the mutable global struct
tcp2_trivial_allocator_app_operations: two possibly NULL function pointers.
An application alloc maps (type, size) to a region or NULL; an application
free maps (type, size, contents of obj) to the contents it leaves behind. -/
structure AppOperations where
  alloc : Option (Nat → Nat → Option (List Nat))
  free : Option (Nat → Nat → List Nat → List Nat)

/-- Initial state of the global: both members NULL (allocators_1.c 209-212). -/
def tcp2_trivial_allocator_app_operations_init : AppOperations :=
  ⟨none, none⟩

/-- tcp2_set_trivial_allocator_app_operations (allocators_1.c 214-221):
store both supplied pointers into the global. -/
def tcp2_set_trivial_allocator_app_operations
    (a : Option (Nat → Nat → Option (List Nat)))
    (f : Option (Nat → Nat → List Nat → List Nat))
    (_s : AppOperations) : AppOperations :=
  ⟨a, f⟩

/-- tcp2_clear_trivial_allocator_app_operations (allocators_1.c 223-226):
reset both pointers of the global to NULL. -/
def tcp2_clear_trivial_allocator_app_operations
    (_s : AppOperations) : AppOperations :=
  ⟨none, none⟩

/-- Result of tcp2_trivial_alloc: either the call went through a NULL
function pointer (undefined behaviour in C), or a region pointer was
returned (none = NULL, some bytes = the contents of the region). -/
inductive AllocResult where
  | nullCall
  | region (r : Option (List Nat))
deriving DecidableEq

/-- Result of tcp2_trivial_free: a NULL function pointer call, or the
region was handed to the application free with the given contents, or the
region reached the heap free with the given final contents. -/
inductive FreeResult where
  | nullCall
  | appFreed (contents : List Nat)
  | heapFreed (contents : List Nat)
deriving DecidableEq

/-- tcp2_trivial_alloc (allocators_1.c 238-254).  The condition of the
first if is transcribed with its C precedence.  raw models what malloc
returns: none on failure, otherwise the uninitialised contents. -/
def tcp2_trivial_alloc (appOps : AppOperations) (type size : Nat)
    (raw : Option (List Nat)) : AllocResult :=
  if (appOps.alloc.isSome = true ∧ type = 0) ∨ TCP2_TYPE_LIMIT < type then
    match appOps.alloc with
    | some a => AllocResult.region (a type size)
    | none => AllocResult.nullCall
  else
    match raw with
    | none => AllocResult.region none
    | some bytes =>
      if type ≠ 0 then
        AllocResult.region (some (List.replicate size 0 ++ bytes.drop size))
      else
        AllocResult.region (some bytes)

/-- tcp2_trivial_free (allocators_1.c 256-270).  Note: as in the C source,
the guard tests the alloc member of the app operations, while the body
invokes the free member. -/
def tcp2_trivial_free (appOps : AppOperations) (type size : Nat)
    (obj : List Nat) : FreeResult :=
  if (appOps.alloc.isSome = true ∧ type = 0) ∨ TCP2_TYPE_LIMIT < type then
    match appOps.free with
    | some f => FreeResult.appFreed (f type size obj)
    | none => FreeResult.nullCall
  else
    if type ≠ 0 then
      FreeResult.heapFreed (List.replicate size 0 ++ obj.drop size)
    else
      FreeResult.heapFreed obj

/-- struct tcp2_allocator_operations (allocators_1.c 124-181), specialised
to the byte-list model of regions. -/
structure tcp2_allocator_operations where
  alloc : Nat → Nat → Option (List Nat) → AllocResult
  free : Nat → Nat → List Nat → FreeResult

/-- struct tcp2_allocator (allocators_1.c 112-114). -/
structure tcp2_allocator where
  operations : tcp2_allocator_operations

/-- tcp2_get_trivial_allocator (allocators_1.c 294-296), with the global
app-operations state made explicit. -/
def tcp2_get_trivial_allocator (appOps : AppOperations) : tcp2_allocator :=
  ⟨⟨tcp2_trivial_alloc appOps, tcp2_trivial_free appOps⟩⟩

/-- tcp2_allocator_alloc (allocators_1.c 188-191). -/
def tcp2_allocator_alloc (al : tcp2_allocator) (type size : Nat)
    (raw : Option (List Nat)) : AllocResult :=
  al.operations.alloc type size raw

/-- tcp2_allocator_free (allocators_1.c 193-196). -/
def tcp2_allocator_free (al : tcp2_allocator) (type size : Nat)
    (obj : List Nat) : FreeResult :=
  al.operations.free type size obj

/-- Outcome of app_modified_free (allocators_1.c 318-327): one of the two
application type specific releases, or the fallback, which in the source
invokes tcp2_trivial_alloc (not tcp2_trivial_free) and ignores obj. -/
inductive ModifiedFreeResult where
  | freedType1
  | freedType2
  | fallback (r : AllocResult)
deriving DecidableEq

/-- app_modified_free (allocators_1.c 318-327).  APP_TYPE1 and APP_TYPE2
are application defined constants, taken as parameters.  The fallback
branch is transcribed as in the source: it calls tcp2_trivial_alloc with
(type, size) and never uses obj; raw models the heap contents that call
would obtain. -/
def app_modified_free (APP_TYPE1 APP_TYPE2 : Nat) (appOps : AppOperations)
    (type size : Nat) (obj : List Nat) (raw : Option (List Nat)) :
    ModifiedFreeResult :=
  if type = APP_TYPE1 then
    ModifiedFreeResult.freedType1
  else if type = APP_TYPE2 then
    ModifiedFreeResult.freedType2
  else
    ModifiedFreeResult.fallback (tcp2_trivial_alloc appOps type size raw)

/-- Calls made by app_create_custom_allocator and
app_destroy_custom_allocator, recorded as a trace. -/
inductive AllocEvent where
  | acquire (type size : Nat)
  | release (type size : Nat)
  | initialise
  | cleanup
deriving DecidableEq

/-- Result of app_create_custom_allocator: undefined behaviour through a
NULL pointer, NULL returned on allocation failure, or a created and
initialised custom allocator occupying the given region. -/
inductive CreateOutcome where
  | ub
  | failed
  | created (region : List Nat)
deriving DecidableEq

/-- app_create_custom_allocator (allocators_1.c 421-435).  sizeofCustom
stands for sizeof(struct app_custom_allocator); raw models the heap
contents for the underlying malloc.  The store of the operations pointer
into the first member and app_initialise_custom_allocator are summarised
by the initialise event, emitted only after a non NULL result. -/
def app_create_custom_allocator (appOps : AppOperations) (sizeofCustom : Nat)
    (raw : Option (List Nat)) : CreateOutcome × List AllocEvent :=
  match tcp2_allocator_alloc (tcp2_get_trivial_allocator appOps)
      0 sizeofCustom raw with
  | AllocResult.nullCall =>
    (CreateOutcome.ub, [AllocEvent.acquire 0 sizeofCustom])
  | AllocResult.region none =>
    (CreateOutcome.failed, [AllocEvent.acquire 0 sizeofCustom])
  | AllocResult.region (some region) =>
    (CreateOutcome.created region,
     [AllocEvent.acquire 0 sizeofCustom, AllocEvent.initialise])

/-- app_destroy_custom_allocator (allocators_1.c 440-447):
app_cleanup_custom_allocator, then release through the trivial allocator
with the pair (0, sizeof(struct app_custom_allocator)). -/
def app_destroy_custom_allocator (appOps : AppOperations) (sizeofCustom : Nat)
    (obj : List Nat) : FreeResult × List AllocEvent :=
  (tcp2_allocator_free (tcp2_get_trivial_allocator appOps) 0 sizeofCustom obj,
   [AllocEvent.cleanup, AllocEvent.release 0 sizeofCustom])

/-- The (type, size) pairs of the acquire calls in a trace. -/
def acquireCalls (es : List AllocEvent) : List (Nat × Nat) :=
  es.filterMap fun e =>
    match e with
    | AllocEvent.acquire t s => some (t, s)
    | _ => none

/-- The (type, size) pairs of the release calls in a trace. -/
def releaseCalls (es : List AllocEvent) : List (Nat × Nat) :=
  es.filterMap fun e =>
    match e with
    | AllocEvent.release t s => some (t, s)
    | _ => none

/-- A tcp2_buffer is modelled by its byte contents. -/
abbrev Tcp2Buffer := List Nat

/-- tcp2_buffer_empty collaborator: a buffer is empty when it holds no
bytes. -/
def tcp2_buffer_empty (b : Tcp2Buffer) : Bool :=
  b.isEmpty

/-- tcp2_create_buffer collaborator: a freshly created buffer is empty. -/
def tcp2_create_buffer : Tcp2Buffer :=
  []

/-- struct tcp2_events (events_in_out_1.c 155-158): the in buffer pointer,
the out buffer pointer (none = NULL) and the timeout value. -/
structure tcp2_events where
  buffer_in : Option Tcp2Buffer
  buffer_out : Option Tcp2Buffer
  timeout_out : Nat × Nat
deriving DecidableEq

/-- Calls the two host callbacks make into the host environment, recorded
as a trace: scheduling a timer, handing a buffer to
app_network_write_udp, destroying a buffer via tcp2_destroy_buffer, and
re-arming the network read. -/
inductive HostAction where
  | timerSchedule (t : Nat × Nat)
  | writeUdp (b : Tcp2Buffer)
  | destroyBuffer (b : Tcp2Buffer)
  | readUdp
deriving DecidableEq

/-- app_network_on_udp_read (events_in_out_1.c 100-222).  tcp2_process and
app_timer_keep_old_timeout are external collaborators, taken as
parameters.  The result is the events record as left at return together
with the trace of host calls; none models the undefined behaviour of
passing a NULL buffer_out to tcp2_buffer_empty, reachable only if
tcp2_process nulls the buffer_out pointer the application installed. -/
def app_network_on_udp_read
    (tcp2_process : tcp2_events → tcp2_events)
    (app_timer_keep_old_timeout : Nat × Nat → Bool)
    (buffer_in : Option Tcp2Buffer) :
    Option (tcp2_events × List HostAction) :=
  let ev0 : tcp2_events := ⟨buffer_in, some tcp2_create_buffer, (0, 0)⟩
  let ev1 := tcp2_process ev0
  let timerActions : List HostAction :=
    if app_timer_keep_old_timeout ev1.timeout_out then
      []
    else
      [HostAction.timerSchedule ev1.timeout_out]
  match ev1.buffer_out with
  | none => none
  | some b =>
    if tcp2_buffer_empty b = false then
      some (⟨none, none, (0, 0)⟩,
            timerActions ++ [HostAction.writeUdp b, HostAction.readUdp])
    else
      some (⟨none, none, (0, 0)⟩,
            timerActions ++ [HostAction.destroyBuffer b, HostAction.readUdp])

/-- app_timer_on_timeout (events_in_out_1.c 231-282).  Identical to
app_network_on_udp_read except that buffer_in starts NULL and no further
network read is armed at the end. -/
def app_timer_on_timeout
    (tcp2_process : tcp2_events → tcp2_events)
    (app_timer_keep_old_timeout : Nat × Nat → Bool) :
    Option (tcp2_events × List HostAction) :=
  let ev0 : tcp2_events := ⟨none, some tcp2_create_buffer, (0, 0)⟩
  let ev1 := tcp2_process ev0
  let timerActions : List HostAction :=
    if app_timer_keep_old_timeout ev1.timeout_out then
      []
    else
      [HostAction.timerSchedule ev1.timeout_out]
  match ev1.buffer_out with
  | none => none
  | some b =>
    if tcp2_buffer_empty b = false then
      some (⟨none, none, (0, 0)⟩,
            timerActions ++ [HostAction.writeUdp b])
    else
      some (⟨none, none, (0, 0)⟩,
            timerActions ++ [HostAction.destroyBuffer b])

/-- The buffer ownership discipline claimed for both callbacks: at return
both buffer fields are NULL, and the outbound buffer was disposed of in
exactly one way — written to the network when non empty (and then never
destroyed), or destroyed when empty (and then never written). -/
def buffersFullyReleased (ev : tcp2_events) (acts : List HostAction) : Prop :=
  ev.buffer_in = none ∧ ev.buffer_out = none ∧
  ((∃ b, tcp2_buffer_empty b = false ∧ HostAction.writeUdp b ∈ acts ∧
      ∀ c, HostAction.destroyBuffer c ∉ acts) ∨
   (∃ b, tcp2_buffer_empty b = true ∧ HostAction.destroyBuffer b ∈ acts ∧
      ∀ c, HostAction.writeUdp c ∉ acts))

/-- An installed pair of application operations, used as a concrete state
of the global: the application alloc always returns the one byte region
[1]; the application free leaves the contents of obj untouched. -/
def appOpsInstalled : AppOperations :=
  ⟨some fun _ _ => some [1], some fun _ _ obj => obj⟩

/-- A state of the global where only the alloc member is set and the free
member is still NULL. -/
def appOpsAllocOnly : AppOperations :=
  ⟨some fun _ _ => some [1], none⟩

/-- The first size bytes of a region whose first size bytes were just
memset to zero are all zero. -/
lemma take_replicate_append (s : Nat) (l : List Nat) :
    (List.replicate s 0 ++ l).take s = List.replicate s 0 := by
  have h : (List.replicate s (0 : Nat)).length = s := List.length_replicate s 0
  have h2 := List.take_left (List.replicate s (0 : Nat)) l
  rw [h] at h2
  exact h2

/-- Neither branch condition of the app-operations dispatch holds for a
non-zero type at or below the tcp2 type limit. -/
lemma dispatch_false_of_engine_tag (appOps : AppOperations) (type : Nat)
    (htype : type ≠ 0) (hlimit : type ≤ TCP2_TYPE_LIMIT) :
    ¬((appOps.alloc.isSome = true ∧ type = 0) ∨ TCP2_TYPE_LIMIT < type) := by
  rintro (⟨-, h0⟩ | hgt)
  · exact htype h0
  · exact absurd hlimit (Nat.not_le.mpr hgt)

/-- Claim C1 (amended): for every non-zero type tag at or below the tcp2
type limit 1048576 and every size, a successful tcp2_trivial_alloc returns
the malloc region with its first size bytes set to zero; those bytes are
all zero. -/
theorem trivial_alloc_zeroes_engine_tags
    (appOps : AppOperations) (type size : Nat) (bytes : List Nat)
    (htype : type ≠ 0) (hlimit : type ≤ TCP2_TYPE_LIMIT) :
    tcp2_trivial_alloc appOps type size (some bytes)
      = AllocResult.region (some (List.replicate size 0 ++ bytes.drop size)) ∧
    (List.replicate size 0 ++ bytes.drop size).take size
      = List.replicate size 0 := by
  constructor
  · unfold tcp2_trivial_alloc
    rw [if_neg (dispatch_false_of_engine_tag appOps type htype hlimit)]
    simp [htype]
  · exact take_replicate_append size (bytes.drop size)

/-- Witness for C1 at type 5, size 2, malloc contents [9, 9, 9]. -/
theorem trivial_alloc_zeroes_engine_tags_witness :
    tcp2_trivial_alloc tcp2_trivial_allocator_app_operations_init 5 2
        (some [9, 9, 9])
      = AllocResult.region (some (List.replicate 2 0 ++ [9, 9, 9].drop 2)) ∧
    (List.replicate 2 0 ++ [9, 9, 9].drop 2).take 2 = List.replicate 2 0 :=
  trivial_alloc_zeroes_engine_tags tcp2_trivial_allocator_app_operations_init
    5 2 [9, 9, 9] (by decide) (by decide)

/-- Counterexample to C1 as stated: with application operations installed,
the non-zero tag 1048577 is dispatched to the application alloc, and the
region returned, [1], is not zeroed. -/
theorem trivial_alloc_host_tag_not_zeroed :
    tcp2_trivial_alloc appOpsInstalled 1048577 1 (some [5])
      = AllocResult.region (some [1]) ∧
    ([1] : List Nat) ≠ List.replicate 1 0 :=
  ⟨by decide, by decide⟩

/-- Claim C2 (amended): when no application alloc is installed, a tag 0
tcp2_trivial_alloc returns exactly the region obtained from malloc, with
no zeroing: NULL on failure, the raw contents otherwise. -/
theorem trivial_alloc_tag0_returns_heap_region
    (appOps : AppOperations) (size : Nat) (raw : Option (List Nat))
    (h : appOps.alloc = none) :
    tcp2_trivial_alloc appOps 0 size raw = AllocResult.region raw := by
  unfold tcp2_trivial_alloc
  rw [if_neg]
  · cases raw with
    | none => rfl
    | some bytes => simp
  · rintro (⟨hsome, -⟩ | hgt)
    · rw [h] at hsome
      exact Bool.false_ne_true hsome
    · exact absurd hgt (by decide)

/-- Witness for C2 at size 1, malloc contents [5], initial global state. -/
theorem trivial_alloc_tag0_returns_heap_region_witness :
    tcp2_trivial_alloc tcp2_trivial_allocator_app_operations_init 0 1
        (some [5])
      = AllocResult.region (some [5]) :=
  trivial_alloc_tag0_returns_heap_region
    tcp2_trivial_allocator_app_operations_init 1 (some [5]) rfl

/-- Counterexample to C2 as stated: with an application alloc installed,
a tag 0 request is dispatched to it and returns [1], not the region [5]
the heap would have supplied. -/
theorem trivial_alloc_tag0_intercepted :
    tcp2_trivial_alloc appOpsInstalled 0 1 (some [5])
      = AllocResult.region (some [1]) ∧
    (some [1] : Option (List Nat)) ≠ some [5] :=
  ⟨by decide, by decide⟩

/-- Claim C3 (amended): for every non-zero type tag at or below the tcp2
type limit 1048576 and every size, tcp2_trivial_free sets the first size
bytes of obj to zero and hands the region to the heap; those bytes are
all zero. -/
theorem trivial_free_zeroes_engine_tags
    (appOps : AppOperations) (type size : Nat) (obj : List Nat)
    (htype : type ≠ 0) (hlimit : type ≤ TCP2_TYPE_LIMIT) :
    tcp2_trivial_free appOps type size obj
      = FreeResult.heapFreed (List.replicate size 0 ++ obj.drop size) ∧
    (List.replicate size 0 ++ obj.drop size).take size
      = List.replicate size 0 := by
  constructor
  · unfold tcp2_trivial_free
    rw [if_neg (dispatch_false_of_engine_tag appOps type htype hlimit)]
    simp [htype]
  · exact take_replicate_append size (obj.drop size)

/-- Witness for C3 at type 5, size 2, obj contents [9, 9, 9]. -/
theorem trivial_free_zeroes_engine_tags_witness :
    tcp2_trivial_free tcp2_trivial_allocator_app_operations_init 5 2
        [9, 9, 9]
      = FreeResult.heapFreed (List.replicate 2 0 ++ [9, 9, 9].drop 2) ∧
    (List.replicate 2 0 ++ [9, 9, 9].drop 2).take 2 = List.replicate 2 0 :=
  trivial_free_zeroes_engine_tags tcp2_trivial_allocator_app_operations_init
    5 2 [9, 9, 9] (by decide) (by decide)

/-- Counterexample to C3 as stated: with application operations installed,
the non-zero tag 1048577 is dispatched to the application free, which
receives obj with its contents [9] not zeroed, and the heap path is never
reached. -/
theorem trivial_free_host_tag_not_zeroed :
    tcp2_trivial_free appOpsInstalled 1048577 1 [9]
      = FreeResult.appFreed [9] ∧
    ([9] : List Nat) ≠ List.replicate 1 0 :=
  ⟨by decide, by decide⟩

/-- Claim C4 (code bug, evaluated at the failing boundary): with
application operations installed, tag 1048575 is served by the heap path
and tag 1048577 by the application operations, as the claim says; but the
boundary tag 1048576, host-reserved per the documentation, is also served
by the heap path in both alloc and free, because the dispatch uses the
strict comparison type > 1048576. -/
theorem trivial_alloc_boundary_tag_served_by_heap :
    tcp2_trivial_alloc appOpsInstalled 1048575 1 (some [5])
      = AllocResult.region (some [0]) ∧
    tcp2_trivial_alloc appOpsInstalled 1048577 1 (some [5])
      = AllocResult.region (some [1]) ∧
    tcp2_trivial_alloc appOpsInstalled 1048576 1 (some [5])
      = AllocResult.region (some [0]) ∧
    tcp2_trivial_free appOpsInstalled 1048576 1 [5]
      = FreeResult.heapFreed [0] :=
  ⟨by decide, by decide, by decide, by decide⟩

/-- Claim C5 (code bug, evaluated at the failing inputs): with both
application pointers NULL, tag 1048577 still takes the app-operations
branch (the NULL test binds only to the type == 0 arm of the condition)
and invokes the NULL alloc and free pointers; and with only the alloc
member set, a tag 0 free invokes the NULL free pointer because the guard
tests the alloc member. -/
theorem trivial_alloc_null_call_on_host_tag :
    tcp2_trivial_alloc tcp2_trivial_allocator_app_operations_init 1048577 1
        (some [5])
      = AllocResult.nullCall ∧
    tcp2_trivial_free tcp2_trivial_allocator_app_operations_init 1048577 1 [5]
      = FreeResult.nullCall ∧
    tcp2_trivial_free appOpsAllocOnly 0 1 [5] = FreeResult.nullCall :=
  ⟨by decide, by decide, by decide⟩

/-- Claim C9 (code bug, evaluated at the failing input): with APP_TYPE1 = 1
and APP_TYPE2 = 2, app_modified_free on the unrelated tag 5 with obj = [9]
does not release obj; the fallback performs a fresh allocation through
tcp2_trivial_alloc, returning a newly zeroed one byte region. -/
theorem app_modified_free_fallback_allocates :
    app_modified_free 1 2 tcp2_trivial_allocator_app_operations_init 5 1 [9]
        (some [3])
      = ModifiedFreeResult.fallback (AllocResult.region (some [0])) :=
  by decide

/-- Claim C10: clearing the application operations after any set call
restores the initial all-NULL state, and tcp2_trivial_alloc and
tcp2_trivial_free in the cleared state agree with the initial state on
every input. -/
theorem clear_app_operations_restores_initial
    (a : Option (Nat → Nat → Option (List Nat)))
    (f : Option (Nat → Nat → List Nat → List Nat))
    (s : AppOperations) (type size : Nat) (raw : Option (List Nat))
    (obj : List Nat) :
    tcp2_clear_trivial_allocator_app_operations
        (tcp2_set_trivial_allocator_app_operations a f s)
      = tcp2_trivial_allocator_app_operations_init ∧
    tcp2_trivial_alloc
        (tcp2_clear_trivial_allocator_app_operations
          (tcp2_set_trivial_allocator_app_operations a f s)) type size raw
      = tcp2_trivial_alloc tcp2_trivial_allocator_app_operations_init
          type size raw ∧
    tcp2_trivial_free
        (tcp2_clear_trivial_allocator_app_operations
          (tcp2_set_trivial_allocator_app_operations a f s)) type size obj
      = tcp2_trivial_free tcp2_trivial_allocator_app_operations_init
          type size obj :=
  ⟨rfl, rfl, rfl⟩

/-- Claim C6: whatever tcp2_process and app_timer_keep_old_timeout do and
whatever inbound buffer arrives, when either host callback returns
normally, the events record has both buffer fields NULL and the outbound
buffer was disposed of in exactly one of the two permitted ways. -/
theorem callbacks_release_buffer_fields
    (tcp2_process : tcp2_events → tcp2_events)
    (keepOld : Nat × Nat → Bool) (bin : Option Tcp2Buffer)
    (ev : tcp2_events) (acts : List HostAction) :
    (app_network_on_udp_read tcp2_process keepOld bin = some (ev, acts) →
      buffersFullyReleased ev acts) ∧
    (app_timer_on_timeout tcp2_process keepOld = some (ev, acts) →
      buffersFullyReleased ev acts) := by
  constructor
  · intro h
    simp only [app_network_on_udp_read] at h
    generalize tcp2_process ⟨bin, some tcp2_create_buffer, (0, 0)⟩ = ev1 at h
    cases hout : ev1.buffer_out with
    | none => simp [hout] at h
    | some b =>
      cases hk : keepOld ev1.timeout_out with
      | false =>
        cases hb : tcp2_buffer_empty b with
        | false =>
          simp [hout, hk, hb] at h
          obtain ⟨hev, hacts⟩ := h
          subst hev
          subst hacts
          exact ⟨rfl, rfl, Or.inl ⟨b, hb, by simp, fun c hc => by simp at hc⟩⟩
        | true =>
          simp [hout, hk, hb] at h
          obtain ⟨hev, hacts⟩ := h
          subst hev
          subst hacts
          exact ⟨rfl, rfl, Or.inr ⟨b, hb, by simp, fun c hc => by simp at hc⟩⟩
      | true =>
        cases hb : tcp2_buffer_empty b with
        | false =>
          simp [hout, hk, hb] at h
          obtain ⟨hev, hacts⟩ := h
          subst hev
          subst hacts
          exact ⟨rfl, rfl, Or.inl ⟨b, hb, by simp, fun c hc => by simp at hc⟩⟩
        | true =>
          simp [hout, hk, hb] at h
          obtain ⟨hev, hacts⟩ := h
          subst hev
          subst hacts
          exact ⟨rfl, rfl, Or.inr ⟨b, hb, by simp, fun c hc => by simp at hc⟩⟩
  · intro h
    simp only [app_timer_on_timeout] at h
    generalize tcp2_process ⟨none, some tcp2_create_buffer, (0, 0)⟩ = ev1 at h
    cases hout : ev1.buffer_out with
    | none => simp [hout] at h
    | some b =>
      cases hk : keepOld ev1.timeout_out with
      | false =>
        cases hb : tcp2_buffer_empty b with
        | false =>
          simp [hout, hk, hb] at h
          obtain ⟨hev, hacts⟩ := h
          subst hev
          subst hacts
          exact ⟨rfl, rfl, Or.inl ⟨b, hb, by simp, fun c hc => by simp at hc⟩⟩
        | true =>
          simp [hout, hk, hb] at h
          obtain ⟨hev, hacts⟩ := h
          subst hev
          subst hacts
          exact ⟨rfl, rfl, Or.inr ⟨b, hb, by simp, fun c hc => by simp at hc⟩⟩
      | true =>
        cases hb : tcp2_buffer_empty b with
        | false =>
          simp [hout, hk, hb] at h
          obtain ⟨hev, hacts⟩ := h
          subst hev
          subst hacts
          exact ⟨rfl, rfl, Or.inl ⟨b, hb, by simp, fun c hc => by simp at hc⟩⟩
        | true =>
          simp [hout, hk, hb] at h
          obtain ⟨hev, hacts⟩ := h
          subst hev
          subst hacts
          exact ⟨rfl, rfl, Or.inr ⟨b, hb, by simp, fun c hc => by simp at hc⟩⟩

/-- The identity processing function, used to instantiate the C6 claim. -/
def processIdent : tcp2_events → tcp2_events :=
  fun ev => ev

/-- A keep-old-timeout policy that always keeps the old timeout. -/
def keepOldAlways : Nat × Nat → Bool :=
  fun _ => true

/-- Witness for C6: the udp-read callback run with the identity processing
function and no inbound buffer returns with both buffer fields NULL,
having destroyed the (empty) outbound buffer. -/
theorem callbacks_release_buffer_fields_witness :
    buffersFullyReleased ⟨none, none, (0, 0)⟩
      [HostAction.destroyBuffer [], HostAction.readUdp] :=
  (callbacks_release_buffer_fields processIdent keepOldAlways none
    ⟨none, none, (0, 0)⟩ [HostAction.destroyBuffer [], HostAction.readUdp]).1
    rfl

/-- Claim C7: app_create_custom_allocator acquires with exactly the pair
(0, sizeof(struct app_custom_allocator)) and app_destroy_custom_allocator
releases with exactly the same pair, in every state of the global
app operations and for every heap outcome. -/
theorem custom_allocator_create_destroy_matched_pair
    (appOps : AppOperations) (sizeofCustom : Nat)
    (raw : Option (List Nat)) (obj : List Nat) :
    acquireCalls (app_create_custom_allocator appOps sizeofCustom raw).2
      = [(0, sizeofCustom)] ∧
    releaseCalls (app_destroy_custom_allocator appOps sizeofCustom obj).2
      = [(0, sizeofCustom)] := by
  refine ⟨?_, rfl⟩
  cases h : tcp2_allocator_alloc (tcp2_get_trivial_allocator appOps)
      0 sizeofCustom raw with
  | nullCall => simp [app_create_custom_allocator, h, acquireCalls]
  | region r =>
    cases r with
    | none => simp [app_create_custom_allocator, h, acquireCalls]
    | some region => simp [app_create_custom_allocator, h, acquireCalls]

/-- Claim C8: when the underlying acquire fails with NULL,
app_create_custom_allocator returns NULL at once: its outcome is failed
and its trace holds only the acquire call, with no initialisation. -/
theorem create_custom_allocator_alloc_failure_clean
    (appOps : AppOperations) (sizeofCustom : Nat) (raw : Option (List Nat))
    (h : tcp2_allocator_alloc (tcp2_get_trivial_allocator appOps)
        0 sizeofCustom raw = AllocResult.region none) :
    app_create_custom_allocator appOps sizeofCustom raw
      = (CreateOutcome.failed, [AllocEvent.acquire 0 sizeofCustom]) := by
  simp [app_create_custom_allocator, h]

/-- Witness for C8: in the initial global state with malloc failing,
creation fails cleanly at size 8. -/
theorem create_custom_allocator_alloc_failure_clean_witness :
    app_create_custom_allocator tcp2_trivial_allocator_app_operations_init
        8 none
      = (CreateOutcome.failed, [AllocEvent.acquire 0 8]) :=
  create_custom_allocator_alloc_failure_clean
    tcp2_trivial_allocator_app_operations_init 8 none (by decide)
